import Mathlib

/-!
Verification of the multi-device telemetry retrieval and reconciliation core of
`py-scripts/get_evpn2.py` (pygnmi-srl-apps).

The Python program works on dynamically typed JSON-like trees (nested dicts,
lists, strings, ints).  We embed those values as the inductive type `Val`,
embed dict subscription / membership / `.get` with Python error behaviour
(`Except String` plays the role of a raised exception), and translate each
function of the source: `SrlDevice._get_gnmi_info` (decode of the gNMI
response, logger-level handling, swallow of transport failures),
`SrlDevice.get_bgp_evpn_info`, `SrlDevice.get_bgp_vpn_info` (record
extraction), and the per-device join performed in `main` (lines 200-209).
-/

/-- a Python value: the shapes that occur in gNMI responses and the roster. -/
inductive Val where
  | str : String → Val
  | vint : Int → Val
  | bool : Bool → Val
  | list : List Val → Val
  | obj : List (String × Val) → Val
  deriving Repr

mutual

def Val.decEq : (a b : Val) → Decidable (a = b)
  | .str a, .str b =>
    match String.decEq a b with
    | .isTrue h => .isTrue (by rw [h])
    | .isFalse h => .isFalse (by intro hh; cases hh; exact h rfl)
  | .vint a, .vint b =>
    match Int.instDecidableEq a b with
    | .isTrue h => .isTrue (by rw [h])
    | .isFalse h => .isFalse (by intro hh; cases hh; exact h rfl)
  | .bool a, .bool b =>
    match Bool.decEq a b with
    | .isTrue h => .isTrue (by rw [h])
    | .isFalse h => .isFalse (by intro hh; cases hh; exact h rfl)
  | .list a, .list b =>
    match Val.decEqList a b with
    | .isTrue h => .isTrue (by rw [h])
    | .isFalse h => .isFalse (by intro hh; cases hh; exact h rfl)
  | .obj a, .obj b =>
    match Val.decEqObj a b with
    | .isTrue h => .isTrue (by rw [h])
    | .isFalse h => .isFalse (by intro hh; cases hh; exact h rfl)
  | .str _, .vint _ => .isFalse (by intro h; cases h)
  | .str _, .bool _ => .isFalse (by intro h; cases h)
  | .str _, .list _ => .isFalse (by intro h; cases h)
  | .str _, .obj _ => .isFalse (by intro h; cases h)
  | .vint _, .str _ => .isFalse (by intro h; cases h)
  | .vint _, .bool _ => .isFalse (by intro h; cases h)
  | .vint _, .list _ => .isFalse (by intro h; cases h)
  | .vint _, .obj _ => .isFalse (by intro h; cases h)
  | .bool _, .str _ => .isFalse (by intro h; cases h)
  | .bool _, .vint _ => .isFalse (by intro h; cases h)
  | .bool _, .list _ => .isFalse (by intro h; cases h)
  | .bool _, .obj _ => .isFalse (by intro h; cases h)
  | .list _, .str _ => .isFalse (by intro h; cases h)
  | .list _, .vint _ => .isFalse (by intro h; cases h)
  | .list _, .bool _ => .isFalse (by intro h; cases h)
  | .list _, .obj _ => .isFalse (by intro h; cases h)
  | .obj _, .str _ => .isFalse (by intro h; cases h)
  | .obj _, .vint _ => .isFalse (by intro h; cases h)
  | .obj _, .bool _ => .isFalse (by intro h; cases h)
  | .obj _, .list _ => .isFalse (by intro h; cases h)

def Val.decEqList : (a b : List Val) → Decidable (a = b)
  | [], [] => .isTrue rfl
  | [], _ :: _ => .isFalse (by intro h; cases h)
  | _ :: _, [] => .isFalse (by intro h; cases h)
  | x :: xs, y :: ys =>
    match Val.decEq x y with
    | .isTrue h1 =>
      match Val.decEqList xs ys with
      | .isTrue h2 => .isTrue (by rw [h1, h2])
      | .isFalse h2 => .isFalse (by intro hh; cases hh; exact h2 rfl)
    | .isFalse h1 => .isFalse (by intro hh; cases hh; exact h1 rfl)

def Val.decEqObj : (a b : List (String × Val)) → Decidable (a = b)
  | [], [] => .isTrue rfl
  | [], _ :: _ => .isFalse (by intro h; cases h)
  | _ :: _, [] => .isFalse (by intro h; cases h)
  | (k1, v1) :: xs, (k2, v2) :: ys =>
    match String.decEq k1 k2 with
    | .isTrue hk =>
      match Val.decEq v1 v2 with
      | .isTrue hv =>
        match Val.decEqObj xs ys with
        | .isTrue ht => .isTrue (by rw [hk, hv, ht])
        | .isFalse ht => .isFalse (by intro hh; cases hh; exact ht rfl)
      | .isFalse hv => .isFalse (by intro hh; cases hh; exact hv rfl)
    | .isFalse hk => .isFalse (by intro hh; cases hh; exact hk rfl)

end

instance : DecidableEq Val := Val.decEq

/-- first binding of a key in a dict body (Python dicts have unique keys). -/
def lookupKey : List (String × Val) → String → Option Val
  | [], _ => none
  | (k, v) :: rest, key => if k = key then some v else lookupKey rest key

/-- models the Python subscription `v[k]` with a string key: a `KeyError` when
the key is absent from a dict, a `TypeError` when `v` is not a dict. -/
def getKey (v : Val) (k : String) : Except String Val :=
  match v with
  | .obj kvs =>
    match lookupKey kvs k with
    | some x => .ok x
    | none => .error ("KeyError: " ++ k)
  | _ => .error ("TypeError: value not subscriptable by " ++ k)

/-- tests whether the first list starts the second. -/
def beginsWith : List Char → List Char → Bool
  | [], _ => true
  | _ :: _, [] => false
  | a :: as, b :: bs => decide (a = b) && beginsWith as bs

/-- substring test on character lists (Python `needle in hay` for strings). -/
def strContains (needle : List Char) : List Char → Bool
  | [] => needle.isEmpty
  | c :: rest => beginsWith needle (c :: rest) || strContains needle rest

/-- models the Python membership test `k in v`: key membership for a dict,
element membership for a list, substring test for a string, and false
otherwise. -/
def hasKey (v : Val) (k : String) : Bool :=
  match v with
  | .obj kvs => (lookupKey kvs k).isSome
  | .list l => l.any (fun x => decide (x = Val.str k))
  | .str s => strContains k.data s.data
  | _ => false

/-- models Python iteration `for x in v`: a list yields its elements, a dict
yields its keys, a string yields its characters, anything else raises
`TypeError`. -/
def iterate (v : Val) : Except String (List Val) :=
  match v with
  | .list l => .ok l
  | .obj kvs => .ok (kvs.map (fun p => Val.str p.1))
  | .str s => .ok (s.data.map (fun c => Val.str (String.mk [c])))
  | _ => .error "TypeError: value not iterable"

/-- models `v.get(k, dflt)`: an `AttributeError` when `v` is not a dict. -/
def dictGetD (v : Val) (k : String) (dflt : Val) : Except String Val :=
  match v with
  | .obj kvs => .ok ((lookupKey kvs k).getD dflt)
  | _ => .error "AttributeError: value has no attribute get"

/-- models `v.get(k)` (default `None`): an `AttributeError` when `v` is not a
dict, otherwise `none` stands for the Python `None` result. -/
def dictGetOpt (v : Val) (k : String) : Except String (Option Val) :=
  match v with
  | .obj kvs => .ok (lookupKey kvs k)
  | _ => .error "AttributeError: value has no attribute get"

/-- the safe two-level lookup pattern `b.get(k1, \x7b\x7d).get(k2)` used by
`get_bgp_vpn_info` (line 156) for route-distinguisher and route-targets. -/
def safeGet2 (b : Val) (k1 k2 : String) : Except String (Option Val) := do
  let inner ← dictGetD b k1 (Val.obj [])
  dictGetOpt inner k2

/-- Python `logging.CRITICAL`, bound to `LOGGING_LEVEL_CRITICAL` (line 31). -/
def LOGGING_LEVEL_CRITICAL : Nat := 50

/-- Python `logging.WARNING`, bound to `LOGGING_LEVEL_WARNING` (line 32). -/
def LOGGING_LEVEL_WARNING : Nat := 30

/-- the schema key looked for in each update (line 115). -/
def NI_KEY : String := "srl_nokia-network-instance:network-instance"

/-- inner loop of the response walk in `_get_gnmi_info` (lines 114-118): for
each update, look at `update['val']`; when the network-instance key is
present, append all its members to the accumulator.  The second component is
the pending exception, which in the source breaks out of the walk but leaves
the already-accumulated list to be returned (lines 119-124). -/
def processUpdates (acc : List Val) : List Val → List Val × Option String
  | [] => (acc, none)
  | u :: rest =>
    match getKey u "val" with
    | .error e => (acc, some e)
    | .ok v =>
      if hasKey v NI_KEY then
        match getKey v NI_KEY with
        | .error e => (acc, some e)
        | .ok nis =>
          match iterate nis with
          | .error e => (acc, some e)
          | .ok l => processUpdates (acc ++ l) rest
      else processUpdates acc rest

/-- one notification of the walk in `_get_gnmi_info` (lines 113-118): get
`notification['update']`, iterate it, and process each update. -/
def procNotifStep (acc : List Val) (n : Val) : List Val × Option String :=
  match getKey n "update" with
  | .error e => (acc, some e)
  | .ok ups =>
    match iterate ups with
    | .error e => (acc, some e)
    | .ok l => processUpdates acc l

/-- outer loop of the response walk in `_get_gnmi_info` (lines 113-118): for
each notification, walk `notification['update']`; an exception stops the walk
but keeps the accumulator. -/
def processNotifications (acc : List Val) : List Val → List Val × Option String
  | [] => (acc, none)
  | n :: rest =>
    match procNotifStep acc n with
    | (acc2, some e) => (acc2, some e)
    | (acc2, none) => processNotifications acc2 rest

/-- decode phase of `_get_gnmi_info` (lines 111-124): when the fetch produced
no result the list stays empty; otherwise walk `result['notification']`,
catching any exception (the `except` clauses print and fall through to
`return info`, so the partial accumulator is returned). -/
def decodeResult : Option Val → List Val
  | none => []
  | some r =>
    match getKey r "notification" with
    | .error _ => []
    | .ok ns =>
      match iterate ns with
      | .error _ => []
      | .ok l => (processNotifications [] l).1

/-- `SrlDevice._get_gnmi_info` (lines 90-124) as a function of the outcome of
the gNMI get: an exception from the connection or the get is caught and
printed (lines 106-107) leaving `result = None`, so the decode phase sees
`none` and the call returns the empty list instead of propagating. -/
def getGnmiInfo (fetch : Except String Val) : List Val :=
  decodeResult fetch.toOption

/-- `SrlDevice._get_gnmi_info` with the level of the pygnmi logger threaded
explicitly: `priorLevel` is the level before the call; the call sets the
level to `LOGGING_LEVEL_CRITICAL` (line 101), attempts the fetch, and the
`finally` clause (lines 108-109) sets the level to `LOGGING_LEVEL_WARNING` on
every exit path.  Returns the decoded list, the level while the get runs, and
the level after the call returns. -/
def runGetGnmiInfo (_priorLevel : Nat) (fetch : Except String Val) : List Val × Nat × Nat :=
  let levelDuring := LOGGING_LEVEL_CRITICAL
  let result : Option Val := fetch.toOption
  let levelAfter := LOGGING_LEVEL_WARNING
  (decodeResult result, levelDuring, levelAfter)

/-- `SrlDevice.BgpEvpn` (lines 72-80): one extracted EVPN bgp-instance. -/
structure BgpEvpn where
  network_instance : Val
  id : Val
  admin_state : Val
  vxlan_interface : Val
  evi : Val
  ecmp : Val
  oper_state : Val
  deriving Repr, DecidableEq

/-- `SrlDevice.BgpVpn` (lines 82-88): one extracted VPN bgp-instance; the
three `Option` fields hold `none` for the Python `None`. -/
structure BgpVpn where
  network_instance : Val
  id : Val
  rd : Option Val
  export_rt : Option Val
  import_rt : Option Val
  deriving Repr, DecidableEq

/-- body of the inner loop of `get_bgp_evpn_info` (lines 138-142): the
`oper-state` membership test selects the constructor call, and the
constructor arguments are evaluated left to right, each subscription able to
raise `KeyError`.  An absent `oper-state` yields the literal `"no state"`. -/
def extractBgpInstanceEvpn (network_instance bgp_instance : Val) : Except String BgpEvpn :=
  if !(hasKey bgp_instance "oper-state") then do
    let name ← getKey network_instance "name"
    let i ← getKey bgp_instance "id"
    let a ← getKey bgp_instance "admin-state"
    let vx ← getKey bgp_instance "vxlan-interface"
    let ev ← getKey bgp_instance "evi"
    let ec ← getKey bgp_instance "ecmp"
    pure { network_instance := name, id := i, admin_state := a, vxlan_interface := vx,
           evi := ev, ecmp := ec, oper_state := Val.str "no state" }
  else do
    let name ← getKey network_instance "name"
    let i ← getKey bgp_instance "id"
    let a ← getKey bgp_instance "admin-state"
    let vx ← getKey bgp_instance "vxlan-interface"
    let ev ← getKey bgp_instance "evi"
    let ec ← getKey bgp_instance "ecmp"
    let op ← getKey bgp_instance "oper-state"
    pure { network_instance := name, id := i, admin_state := a, vxlan_interface := vx,
           evi := ev, ecmp := ec, oper_state := op }

/-- inner loop of `get_bgp_evpn_info` over the bgp-instances of one
network-instance; an exception propagates and drops the accumulator, as the
function has no handler. -/
def evpnInner (network_instance : Val) (acc : List BgpEvpn) :
    List Val → Except String (List BgpEvpn)
  | [] => .ok acc
  | b :: rest => do
    let r ← extractBgpInstanceEvpn network_instance b
    evpnInner network_instance (acc ++ [r]) rest

/-- outer loop of `get_bgp_evpn_info` (lines 137-142): reach the bgp-instance
collection through `['protocols']['bgp-evpn']['srl_nokia-bgp-evpn:bgp-instance']`
and iterate it. -/
def evpnOuter (acc : List BgpEvpn) : List Val → Except String (List BgpEvpn)
  | [] => .ok acc
  | ni :: rest => do
    let protocols ← getKey ni "protocols"
    let bgpEvpnV ← getKey protocols "bgp-evpn"
    let instsV ← getKey bgpEvpnV "srl_nokia-bgp-evpn:bgp-instance"
    let insts ← iterate instsV
    let acc2 ← evpnInner ni acc insts
    evpnOuter acc2 rest

/-- `SrlDevice.get_bgp_evpn_info` (lines 127-143) applied to the list the
fetch produced: builds one `BgpEvpn` per bgp-instance, in source order; a
missing required field raises and the exception propagates to the caller. -/
def get_bgp_evpn_info (info : List Val) : Except String (List BgpEvpn) :=
  evpnOuter [] info

/-- body of the loop of `get_bgp_vpn_info` (line 156): `name` and `id` are
required subscriptions; route-distinguisher and the two route-targets go
through the safe `.get` chains. -/
def extractBgpInstanceVpn (network_instance bgp_instance : Val) : Except String BgpVpn := do
  let name ← getKey network_instance "name"
  let i ← getKey bgp_instance "id"
  let rdv ← safeGet2 bgp_instance "route-distinguisher" "rd"
  let ert ← safeGet2 bgp_instance "route-target" "export-rt"
  let irt ← safeGet2 bgp_instance "route-target" "import-rt"
  pure { network_instance := name, id := i, rd := rdv, export_rt := ert, import_rt := irt }

/-- inner loop of `get_bgp_vpn_info` over the bgp-instances of one
network-instance. -/
def vpnInner (network_instance : Val) (acc : List BgpVpn) :
    List Val → Except String (List BgpVpn)
  | [] => .ok acc
  | b :: rest => do
    let r ← extractBgpInstanceVpn network_instance b
    vpnInner network_instance (acc ++ [r]) rest

/-- outer loop of `get_bgp_vpn_info` (lines 154-156): reach the bgp-instance
collection through `['protocols']['srl_nokia-bgp-vpn:bgp-vpn']['bgp-instance']`
and iterate it. -/
def vpnOuter (acc : List BgpVpn) : List Val → Except String (List BgpVpn)
  | [] => .ok acc
  | ni :: rest => do
    let protocols ← getKey ni "protocols"
    let bgpVpnV ← getKey protocols "srl_nokia-bgp-vpn:bgp-vpn"
    let instsV ← getKey bgpVpnV "bgp-instance"
    let insts ← iterate instsV
    let acc2 ← vpnInner ni acc insts
    vpnOuter acc2 rest

/-- `SrlDevice.get_bgp_vpn_info` (lines 145-157) applied to the list the
fetch produced. -/
def get_bgp_vpn_info (info : List Val) : Except String (List BgpVpn) :=
  vpnOuter [] info

/-- the attributes stored by `SrlDevice.__init__` (lines 61-68). -/
structure SrlDevice where
  router : String
  port : Nat
  model : String
  release : String
  username : String
  password : String
  skip_verify : Bool
  deriving Repr, DecidableEq

/-- the arguments `_get_gnmi_info` passes to the `gNMIclient` constructor
(line 104): `target=(self.router, self.port), username=self.username,
password=self.password, skip_verify=True` — the last one is the literal
`True`, not the stored `self.skip_verify`. -/
structure GNMIclientArgs where
  target : String × Nat
  username : String
  password : String
  skip_verify : Bool
  deriving Repr, DecidableEq

/-- the session parameters of the gNMI connection opened by each call of
`_get_gnmi_info` for a given device (line 104). -/
def gnmiClientArgs (self : SrlDevice) : GNMIclientArgs :=
  { target := (self.router, self.port), username := self.username,
    password := self.password, skip_verify := true }

/-- Python dict update `d[k] = v` on an insertion-ordered dict represented as
a list of pairs: an existing key keeps its position and takes the new value,
a new key is appended. -/
def dictInsert {α : Type} (d : List (Val × α)) (k : Val) (v : α) : List (Val × α) :=
  if d.any (fun p => decide (p.1 = k)) then
    d.map (fun p => if p.1 = k then (k, v) else p)
  else d ++ [(k, v)]

/-- lookup in an insertion-ordered dict. -/
def dictLookup {α : Type} : List (Val × α) → Val → Option α
  | [], _ => none
  | (k1, v) :: rest, k => if k1 = k then some v else dictLookup rest k

/-- the dict comprehension `{item.network_instance: item for item in records}`
(lines 202-203): records are inserted in source order, a duplicate key is
overwritten by the later record. -/
def buildDict {α : Type} (key : α → Val) (items : List α) : List (Val × α) :=
  items.foldl (fun d it => dictInsert d (key it) it) []

/-- one row appended by `main` (lines 206-209), in the column order of the
table: Router, Network instance, ID, EVPN Admin state, VXLAN interface, EVI,
ECMP, Oper state, RD, import-rt, export-rt. -/
structure JoinedRow where
  router : String
  network_instance : Val
  id : Val
  admin_state : Val
  vxlan_interface : Val
  evi : Val
  ecmp : Val
  oper_state : Val
  rd : Option Val
  import_rt : Option Val
  export_rt : Option Val
  deriving Repr, DecidableEq

/-- body of the key loop of `main` (lines 204-209): a key of the EVPN dict
yields a row exactly when it is also a key of the VPN dict. -/
def joinRow1 (router : String) (vd : List (Val × BgpVpn)) (p : Val × BgpEvpn) :
    Option JoinedRow :=
  match dictLookup vd p.1 with
  | none => none
  | some v =>
    some { router := router, network_instance := p.1, id := p.2.id,
           admin_state := p.2.admin_state, vxlan_interface := p.2.vxlan_interface,
           evi := p.2.evi, ecmp := p.2.ecmp, oper_state := p.2.oper_state,
           rd := v.rd, import_rt := v.import_rt, export_rt := v.export_rt }

/-- the per-device join of `main` (lines 200-209): build the two dicts keyed
by `network_instance`, then walk the keys of the EVPN dict in insertion order
and emit a row for each key present in the VPN dict. -/
def joinRows (router : String) (evpn : List BgpEvpn) (vpn : List BgpVpn) :
    List JoinedRow :=
  let ed := buildDict (fun it => it.network_instance) evpn
  let vd := buildDict (fun it => it.network_instance) vpn
  ed.filterMap (joinRow1 router vd)

/-- one configured device together with the behaviour of the network for its
two path queries: the outcome of the gNMI get on the EVPN path and on the VPN
path (`Except.error` standing for a raised exception). -/
structure DeviceInput where
  router : String
  evpnFetch : Except String Val
  vpnFetch : Except String Val

/-- the device-construction loop of `main` (lines 196-198): each
`SrlDevice(...)` runs both fetch-and-extract passes in its initializer
(lines 69-70); the loop has no exception handler, so an extraction error
propagates and aborts the run. -/
def buildDevices : List DeviceInput → Except String (List (String × List BgpEvpn × List BgpVpn))
  | [] => .ok []
  | d :: rest => do
    let e ← get_bgp_evpn_info (getGnmiInfo d.evpnFetch)
    let v ← get_bgp_vpn_info (getGnmiInfo d.vpnFetch)
    let tail ← buildDevices rest
    pure ((d.router, e, v) :: tail)

/-- the row-collection phase of `main` (lines 200-209) over the constructed
devices: all joined rows, in device order. -/
def collectRows (built : List (String × List BgpEvpn × List BgpVpn)) : List JoinedRow :=
  built.foldl (fun rows t => rows ++ joinRows t.1 t.2.1 t.2.2) []

/-- the reconciliation core of `main`: construct every device (aborting on a
propagated extraction error), then collect the joined rows of every device. -/
def mainRows (devices : List DeviceInput) : Except String (List JoinedRow) := do
  let built ← buildDevices devices
  pure (collectRows built)

/-- a well-formed EVPN bgp-instance sub-tree, all required fields and
`oper-state` present. -/
def biEvpnGood : Val := Val.obj [("id", Val.vint 1), ("admin-state", Val.str "enable"),
  ("vxlan-interface", Val.str "vxlan1.1"), ("evi", Val.vint 1), ("ecmp", Val.vint 2),
  ("oper-state", Val.str "up")]

/-- an EVPN bgp-instance sub-tree with `oper-state` absent. -/
def biEvpnNoOper : Val := Val.obj [("id", Val.vint 1), ("admin-state", Val.str "enable"),
  ("vxlan-interface", Val.str "vxlan1.1"), ("evi", Val.vint 1), ("ecmp", Val.vint 2)]

/-- an EVPN bgp-instance sub-tree with the required field `admin-state`
absent. -/
def biEvpnBad : Val := Val.obj [("id", Val.vint 1),
  ("vxlan-interface", Val.str "vxlan1.2"), ("evi", Val.vint 2), ("ecmp", Val.vint 2),
  ("oper-state", Val.str "up")]

/-- a network-instance sub-tree on the EVPN path holding `biEvpnGood`. -/
def niEvpnGood : Val := Val.obj [("name", Val.str "default"),
  ("protocols", Val.obj [("bgp-evpn",
    Val.obj [("srl_nokia-bgp-evpn:bgp-instance", Val.list [biEvpnGood])])])]

/-- a network-instance sub-tree on the EVPN path holding `biEvpnBad`. -/
def niEvpnBad : Val := Val.obj [("name", Val.str "bad"),
  ("protocols", Val.obj [("bgp-evpn",
    Val.obj [("srl_nokia-bgp-evpn:bgp-instance", Val.list [biEvpnBad])])])]

/-- a well-formed VPN bgp-instance sub-tree. -/
def biVpnGood : Val := Val.obj [("id", Val.vint 1),
  ("route-distinguisher", Val.obj [("rd", Val.str "1:1")]),
  ("route-target", Val.obj [("export-rt", Val.str "target:100:1"),
                            ("import-rt", Val.str "target:100:1")])]

/-- a VPN bgp-instance sub-tree with `route-distinguisher` absent and
`route-target` present. -/
def biVpnNoRd : Val := Val.obj [("id", Val.vint 1),
  ("route-target", Val.obj [("export-rt", Val.str "target:100:1"),
                            ("import-rt", Val.str "target:100:1")])]

/-- a network-instance sub-tree on the VPN path holding `biVpnGood`. -/
def niVpnGood : Val := Val.obj [("name", Val.str "default"),
  ("protocols", Val.obj [("srl_nokia-bgp-vpn:bgp-vpn",
    Val.obj [("bgp-instance", Val.list [biVpnGood])])])]

/-- wraps network-instance sub-trees in the gNMI response envelope
(`notification` / `update` / `val` / schema key). -/
def mkResponse (nis : List Val) : Val :=
  Val.obj [("notification", Val.list [
    Val.obj [("update", Val.list [
      Val.obj [("val", Val.obj [(NI_KEY, Val.list nis)])]])]])]

/-- one well-formed notification holding `niEvpnGood`. -/
def notifGood : Val :=
  Val.obj [("update", Val.list [
    Val.obj [("val", Val.obj [(NI_KEY, Val.list [niEvpnGood])])]])]

/-- a reachable device whose two path queries return well-formed data. -/
def deviceGood : DeviceInput :=
  { router := "srl-1", evpnFetch := .ok (mkResponse [niEvpnGood]),
    vpnFetch := .ok (mkResponse [niVpnGood]) }

/-- a reachable device whose EVPN tree misses the required `admin-state`. -/
def deviceBad : DeviceInput :=
  { router := "srl-2", evpnFetch := .ok (mkResponse [niEvpnBad]),
    vpnFetch := .ok (mkResponse [niVpnGood]) }

/-- an unreachable device: both gNMI gets raise. -/
def deviceDown : DeviceInput :=
  { router := "srl-3", evpnFetch := .error "connection refused",
    vpnFetch := .error "connection refused" }

/-- the extracted EVPN record of `biEvpnGood` in instance `default`. -/
def recE : BgpEvpn :=
  { network_instance := Val.str "default", id := Val.vint 1,
    admin_state := Val.str "enable", vxlan_interface := Val.str "vxlan1.1",
    evi := Val.vint 1, ecmp := Val.vint 2, oper_state := Val.str "up" }

/-- an earlier EVPN record with the same instance name `default`, to be
overwritten in the keyed mapping. -/
def recE0 : BgpEvpn :=
  { network_instance := Val.str "default", id := Val.vint 9,
    admin_state := Val.str "disable", vxlan_interface := Val.str "vxlan1.9",
    evi := Val.vint 9, ecmp := Val.vint 9, oper_state := Val.str "down" }

/-- the extracted EVPN record of `biEvpnNoOper`: `oper_state` holds the
sentinel. -/
def recENoOper : BgpEvpn :=
  { network_instance := Val.str "default", id := Val.vint 1,
    admin_state := Val.str "enable", vxlan_interface := Val.str "vxlan1.1",
    evi := Val.vint 1, ecmp := Val.vint 2, oper_state := Val.str "no state" }

/-- the extracted VPN record of `biVpnGood` in instance `default`. -/
def recV : BgpVpn :=
  { network_instance := Val.str "default", id := Val.vint 1,
    rd := some (Val.str "1:1"), export_rt := some (Val.str "target:100:1"),
    import_rt := some (Val.str "target:100:1") }

/-- the joined row produced for instance `default` of `deviceGood`. -/
def rowGood : JoinedRow :=
  { router := "srl-1", network_instance := Val.str "default", id := Val.vint 1,
    admin_state := Val.str "enable", vxlan_interface := Val.str "vxlan1.1",
    evi := Val.vint 1, ecmp := Val.vint 2, oper_state := Val.str "up",
    rd := some (Val.str "1:1"), import_rt := some (Val.str "target:100:1"),
    export_rt := some (Val.str "target:100:1") }

/-- a device configured with TLS verification enabled (`skip_verify = false`),
as the roster key `skip_verify` permits (lines 191, 198). -/
def deviceNoVerify : SrlDevice :=
  { router := "clab-srl1", port := 57400, model := "ixrd3", release := "21.6.4",
    username := "admin", password := "admin", skip_verify := false }

theorem exBind_ok {ε α β : Type} (a : α) (f : α → Except ε β) :
    (Except.ok a >>= f) = f a := rfl

theorem exBind_err {ε α β : Type} (e : ε) (f : α → Except ε β) :
    ((Except.error e : Except ε α) >>= f) = .error e := rfl

theorem exPure {ε α : Type} (a : α) : (pure a : Except ε α) = .ok a := rfl

theorem getKey_ok_obj {v : Val} {k : String} {x : Val} (h : getKey v k = .ok x) :
    ∃ kvs, v = Val.obj kvs ∧ lookupKey kvs k = some x := by
  cases v <;> simp [getKey] at h
  case obj kvs =>
    cases hl : lookupKey kvs k <;> rw [hl] at h <;> simp at h
    · exact ⟨kvs, rfl, by rw [hl, h]⟩

theorem getKey_ok_hasKey {v : Val} {k : String} {x : Val} (h : getKey v k = .ok x) :
    hasKey v k = true := by
  obtain ⟨kvs, rfl, hl⟩ := getKey_ok_obj h
  simp [hasKey, hl]

theorem hasKey_false_getKey {kvs : List (String × Val)} {k : String}
    (h : hasKey (Val.obj kvs) k = false) :
    getKey (Val.obj kvs) k = .error ("KeyError: " ++ k) := by
  simp [hasKey] at h
  simp [getKey, h]

theorem exBind_eq_ok {ε α β : Type} {m : Except ε α} {f : α → Except ε β} {b : β}
    (h : (m >>= f) = .ok b) : ∃ a, m = .ok a ∧ f a = .ok b := by
  cases m with
  | error e => rw [exBind_err] at h; cases h
  | ok a => exact ⟨a, rfl, h⟩

theorem exMap_eq_ok {ε α β : Type} {m : Except ε α} {f : α → β} {b : β}
    (h : (f <$> m) = .ok b) : ∃ a, m = .ok a ∧ f a = b := by
  cases m with
  | error e => cases h
  | ok a => exact ⟨a, rfl, by cases h; rfl⟩

theorem extractBgpInstanceEvpn_ok_required {ni b : Val} {r : BgpEvpn}
    (h : extractBgpInstanceEvpn ni b = .ok r) :
    hasKey ni "name" = true ∧ hasKey b "id" = true ∧ hasKey b "admin-state" = true ∧
    hasKey b "vxlan-interface" = true ∧ hasKey b "evi" = true ∧ hasKey b "ecmp" = true := by
  unfold extractBgpInstanceEvpn at h
  by_cases hop : hasKey b "oper-state" = true
  · rw [hop] at h
    simp only [Bool.not_true, Bool.false_eq_true, if_false] at h
    obtain ⟨name, h1, h⟩ := exBind_eq_ok h
    obtain ⟨i, h2, h⟩ := exBind_eq_ok h
    obtain ⟨a, h3, h⟩ := exBind_eq_ok h
    obtain ⟨vx, h4, h⟩ := exBind_eq_ok h
    obtain ⟨ev, h5, h⟩ := exBind_eq_ok h
    obtain ⟨ec, h6, h⟩ := exBind_eq_ok h
    obtain ⟨op, h7, h⟩ := exMap_eq_ok h
    exact ⟨getKey_ok_hasKey h1, getKey_ok_hasKey h2, getKey_ok_hasKey h3,
           getKey_ok_hasKey h4, getKey_ok_hasKey h5, getKey_ok_hasKey h6⟩
  · rw [Bool.not_eq_true] at hop
    rw [hop] at h
    simp only [Bool.not_false, if_true] at h
    obtain ⟨name, h1, h⟩ := exBind_eq_ok h
    obtain ⟨i, h2, h⟩ := exBind_eq_ok h
    obtain ⟨a, h3, h⟩ := exBind_eq_ok h
    obtain ⟨vx, h4, h⟩ := exBind_eq_ok h
    obtain ⟨ev, h5, h⟩ := exBind_eq_ok h
    obtain ⟨ec, h6, h⟩ := exMap_eq_ok h
    exact ⟨getKey_ok_hasKey h1, getKey_ok_hasKey h2, getKey_ok_hasKey h3,
           getKey_ok_hasKey h4, getKey_ok_hasKey h5, getKey_ok_hasKey h6⟩

theorem extractBgpInstanceEvpn_oper {ni b : Val} {r : BgpEvpn}
    (h : extractBgpInstanceEvpn ni b = .ok r) :
    (hasKey b "oper-state" = false → r.oper_state = Val.str "no state") ∧
    (∀ v, getKey b "oper-state" = .ok v → r.oper_state = v) := by
  unfold extractBgpInstanceEvpn at h
  by_cases hop : hasKey b "oper-state" = true
  · rw [hop] at h
    simp only [Bool.not_true, Bool.false_eq_true, if_false] at h
    obtain ⟨name, h1, h⟩ := exBind_eq_ok h
    obtain ⟨i, h2, h⟩ := exBind_eq_ok h
    obtain ⟨a, h3, h⟩ := exBind_eq_ok h
    obtain ⟨vx, h4, h⟩ := exBind_eq_ok h
    obtain ⟨ev, h5, h⟩ := exBind_eq_ok h
    obtain ⟨ec, h6, h⟩ := exBind_eq_ok h
    obtain ⟨op, h7, h⟩ := exMap_eq_ok h
    subst h
    constructor
    · intro hfalse; rw [hop] at hfalse; cases hfalse
    · intro v hv
      rw [h7] at hv
      exact Except.ok.inj hv
  · rw [Bool.not_eq_true] at hop
    rw [hop] at h
    simp only [Bool.not_false, if_true] at h
    obtain ⟨name, h1, h⟩ := exBind_eq_ok h
    obtain ⟨i, h2, h⟩ := exBind_eq_ok h
    obtain ⟨a, h3, h⟩ := exBind_eq_ok h
    obtain ⟨vx, h4, h⟩ := exBind_eq_ok h
    obtain ⟨ev, h5, h⟩ := exBind_eq_ok h
    obtain ⟨ec, h6, h⟩ := exMap_eq_ok h
    subst h
    constructor
    · intro _; rfl
    · intro v hv
      rw [getKey_ok_hasKey hv] at hop
      cases hop

theorem getKey_obj_ok {kvs : List (String × Val)} {k : String} {x : Val}
    (h : getKey (Val.obj kvs) k = .ok x) : lookupKey kvs k = some x := by
  simp only [getKey] at h
  cases hl : lookupKey kvs k with
  | none => rw [hl] at h; cases h
  | some y => rw [hl] at h; exact congrArg some (Except.ok.inj h)

theorem safeGet2_absent {kvs : List (String × Val)} {k1 : String} (k2 : String)
    (h : lookupKey kvs k1 = none) : safeGet2 (Val.obj kvs) k1 k2 = .ok none := by
  simp [safeGet2, dictGetD, h, exBind_ok, dictGetOpt, lookupKey]

theorem safeGet2_present {kvs : List (String × Val)} {k1 k2 : String} {inner : Val}
    {res : Except String (Option Val)} (h : lookupKey kvs k1 = some inner)
    (h2 : dictGetOpt inner k2 = res) : safeGet2 (Val.obj kvs) k1 k2 = res := by
  simp [safeGet2, dictGetD, h, exBind_ok, h2]

theorem extractVpn_rd_absent {ni b : Val} {nm i rtv ev iv : Val}
    (h1 : getKey ni "name" = .ok nm) (h2 : getKey b "id" = .ok i)
    (hrd : hasKey b "route-distinguisher" = false)
    (hrt : getKey b "route-target" = .ok rtv)
    (hexp : dictGetOpt rtv "export-rt" = .ok (some ev))
    (himp : dictGetOpt rtv "import-rt" = .ok (some iv)) :
    extractBgpInstanceVpn ni b =
      .ok { network_instance := nm, id := i, rd := none,
            export_rt := some ev, import_rt := some iv } := by
  obtain ⟨kvs, rfl, _⟩ := getKey_ok_obj h2
  simp only [hasKey] at hrd
  have hrd2 : lookupKey kvs "route-distinguisher" = none := by
    cases hv : lookupKey kvs "route-distinguisher" with
    | none => rfl
    | some z => rw [hv] at hrd; cases hrd
  unfold extractBgpInstanceVpn
  rw [h1, exBind_ok, h2, exBind_ok]
  rw [safeGet2_absent "rd" hrd2, exBind_ok]
  rw [safeGet2_present (getKey_obj_ok hrt) hexp, exBind_ok]
  rw [safeGet2_present (getKey_obj_ok hrt) himp]
  rfl

theorem joinRow1_some {router : String} {vd : List (Val × BgpVpn)}
    {p : Val × BgpEvpn} {row : JoinedRow} (h : joinRow1 router vd p = some row) :
    ∃ v, dictLookup vd p.1 = some v ∧ row.router = router ∧
      row.network_instance = p.1 ∧ row.id = p.2.id ∧
      row.admin_state = p.2.admin_state ∧ row.vxlan_interface = p.2.vxlan_interface ∧
      row.evi = p.2.evi ∧ row.ecmp = p.2.ecmp ∧ row.oper_state = p.2.oper_state ∧
      row.rd = v.rd ∧ row.import_rt = v.import_rt ∧ row.export_rt = v.export_rt := by
  unfold joinRow1 at h
  cases hl : dictLookup vd p.1 with
  | none => rw [hl] at h; cases h
  | some v =>
    rw [hl] at h
    injection h with h
    subst h
    exact ⟨v, rfl, rfl, rfl, rfl, rfl, rfl, rfl, rfl, rfl, rfl, rfl, rfl⟩

theorem dictInsert_map_fst {α : Type} (d : List (Val × α)) (k : Val) (v : α) :
    (dictInsert d k v).map Prod.fst =
      if d.any (fun p => decide (p.1 = k)) then d.map Prod.fst
      else d.map Prod.fst ++ [k] := by
  unfold dictInsert
  by_cases h : d.any (fun p => decide (p.1 = k)) = true
  · rw [if_pos h, if_pos h, List.map_map]
    apply List.map_congr_left
    intro p _
    by_cases hp : p.1 = k
    · simp [hp]
    · simp [hp]
  · rw [if_neg h, if_neg h]
    simp

theorem dictInsert_length {α : Type} (d : List (Val × α)) (k : Val) (v : α) :
    (dictInsert d k v).length ≤ d.length + 1 := by
  unfold dictInsert
  by_cases h : d.any (fun p => decide (p.1 = k)) = true
  · rw [if_pos h]; simp
  · rw [if_neg h]; simp

theorem buildDict_length_le {α : Type} (key : α → Val) (items : List α) :
    (buildDict key items).length ≤ items.length := by
  have h : ∀ (l : List α) (d : List (Val × α)),
      (l.foldl (fun d it => dictInsert d (key it) it) d).length ≤ d.length + l.length := by
    intro l
    induction l with
    | nil => intro d; simp
    | cons it rest ih =>
      intro d
      simp only [List.foldl_cons, List.length_cons]
      have h1 := ih (dictInsert d (key it) it)
      have h2 := dictInsert_length d (key it) it
      omega
  have h2 := h items []
  simpa [buildDict] using h2

theorem dictInsert_keys_nodup {α : Type} {d : List (Val × α)}
    (hd : (d.map Prod.fst).Nodup) (k : Val) (v : α) :
    ((dictInsert d k v).map Prod.fst).Nodup := by
  rw [dictInsert_map_fst]
  by_cases h : d.any (fun p => decide (p.1 = k)) = true
  · rw [if_pos h]; exact hd
  · rw [if_neg h]
    rw [List.any_eq_true] at h
    push_neg at h
    rw [List.nodup_append]
    refine ⟨hd, List.nodup_singleton k, ?_⟩
    intro a ha hk
    rw [List.mem_singleton] at hk
    subst hk
    obtain ⟨p, hp, hfst⟩ := List.mem_map.mp ha
    exact (h p hp) (by simp [hfst])

theorem buildDict_keys_nodup {α : Type} (key : α → Val) (items : List α) :
    ((buildDict key items).map Prod.fst).Nodup := by
  have h : ∀ (l : List α) (d : List (Val × α)), (d.map Prod.fst).Nodup →
      ((l.foldl (fun d it => dictInsert d (key it) it) d).map Prod.fst).Nodup := by
    intro l
    induction l with
    | nil => intro d hd; simpa using hd
    | cons it rest ih => intro d hd; exact ih _ (dictInsert_keys_nodup hd _ _)
  exact h items [] (by simp)

theorem dictLookup_isSome_mem {α : Type} {d : List (Val × α)} {k : Val}
    (h : (dictLookup d k).isSome = true) : k ∈ d.map Prod.fst := by
  induction d with
  | nil => simp [dictLookup] at h
  | cons p rest ih =>
    obtain ⟨k1, v⟩ := p
    by_cases hk : k1 = k
    · subst hk; simp
    · rw [dictLookup, if_neg hk] at h
      simpa using Or.inr (ih h)

theorem dictLookup_of_mem_nodup {α : Type} {d : List (Val × α)}
    (hd : (d.map Prod.fst).Nodup) {k : Val} {v : α} (hm : (k, v) ∈ d) :
    dictLookup d k = some v := by
  induction d with
  | nil => cases hm
  | cons p rest ih =>
    obtain ⟨k1, w⟩ := p
    rw [List.map_cons, List.nodup_cons] at hd
    rcases List.mem_cons.mp hm with heq | hmem
    · cases heq
      rw [dictLookup, if_pos rfl]
    · have hk : k1 ≠ k := by
        intro hk1
        subst hk1
        exact hd.1 (List.mem_map.mpr ⟨(k1, v), hmem, rfl⟩)
      rw [dictLookup, if_neg hk]
      exact ih hd.2 hmem

theorem dictLookup_map_update_ne {α : Type} (d : List (Val × α)) {k1 k : Val} (v : α)
    (hne : k ≠ k1) :
    dictLookup (d.map (fun p => if p.1 = k1 then (k1, v) else p)) k = dictLookup d k := by
  induction d with
  | nil => rfl
  | cons p rest ih =>
    obtain ⟨a, w⟩ := p
    by_cases ha : a = k1
    · subst ha
      rw [List.map_cons, if_pos rfl]
      rw [dictLookup, dictLookup, if_neg (fun hh => hne hh.symm), ih]
      rw [if_neg (fun hh => hne hh.symm)]
    · rw [List.map_cons, if_neg ha]
      rw [dictLookup, dictLookup]
      by_cases hak : a = k
      · rw [if_pos hak, if_pos hak]
      · rw [if_neg hak, if_neg hak, ih]

theorem dictLookup_map_update_eq {α : Type} (d : List (Val × α)) (k1 : Val) (v : α)
    (h : d.any (fun p => decide (p.1 = k1)) = true) :
    dictLookup (d.map (fun p => if p.1 = k1 then (k1, v) else p)) k1 = some v := by
  induction d with
  | nil => simp at h
  | cons p rest ih =>
    obtain ⟨a, w⟩ := p
    by_cases ha : a = k1
    · subst ha
      rw [List.map_cons, if_pos rfl, dictLookup, if_pos rfl]
    · rw [List.any_cons] at h
      have hrest : rest.any (fun p => decide (p.1 = k1)) = true := by
        rcases Bool.or_eq_true_iff.mp h with h1 | h1
        · exact absurd (of_decide_eq_true h1) ha
        · exact h1
      rw [List.map_cons, if_neg ha, dictLookup, if_neg ha]
      exact ih hrest

theorem dictLookup_append_one {α : Type} (d : List (Val × α)) (k1 k : Val) (v : α)
    (h : d.any (fun p => decide (p.1 = k1)) = false) :
    dictLookup (d ++ [(k1, v)]) k = if k = k1 then some v else dictLookup d k := by
  induction d with
  | nil =>
    by_cases hk : k = k1
    · subst hk; simp [dictLookup]
    · simp only [List.nil_append, dictLookup]
      rw [if_neg (fun hh => hk hh.symm), if_neg hk]
  | cons p rest ih =>
    obtain ⟨a, w⟩ := p
    rw [List.any_cons, Bool.or_eq_false_iff] at h
    have ha : a ≠ k1 := fun hh => by simp [hh] at h
    rw [List.cons_append, dictLookup, dictLookup]
    by_cases hak : a = k
    · rw [if_pos hak, if_pos hak, if_neg (fun hh => ha (hak.trans hh))]
    · rw [if_neg hak, if_neg hak, ih h.2]

theorem dictLookup_dictInsert {α : Type} (d : List (Val × α)) (k1 k : Val) (v : α) :
    dictLookup (dictInsert d k1 v) k = if k = k1 then some v else dictLookup d k := by
  unfold dictInsert
  by_cases h : d.any (fun p => decide (p.1 = k1)) = true
  · rw [if_pos h]
    by_cases hk : k = k1
    · subst hk; rw [if_pos rfl, dictLookup_map_update_eq d k v h]
    · rw [if_neg hk, dictLookup_map_update_ne d v hk]
  · rw [if_neg h]
    exact dictLookup_append_one d k1 k v (Bool.not_eq_true _ ▸ h)

theorem buildDict_lookup_last {α : Type} (key : α → Val) (items : List α) (k : Val) :
    dictLookup (buildDict key items) k
      = items.reverse.find? (fun it => decide (key it = k)) := by
  induction items using List.reverseRecOn with
  | nil => rfl
  | append_singleton l b ih =>
    have hfold : buildDict key (l ++ [b]) = dictInsert (buildDict key l) (key b) b := by
      rw [buildDict, buildDict, List.foldl_append, List.foldl_cons, List.foldl_nil]
    rw [hfold, dictLookup_dictInsert, List.reverse_append]
    simp only [List.reverse_cons, List.reverse_nil, List.nil_append, List.singleton_append]
    rw [List.find?_cons]
    by_cases hk : k = key b
    · rw [if_pos hk]
      have : decide (key b = k) = true := by simp [hk]
      rw [this]
    · rw [if_neg hk]
      have : decide (key b = k) = false := by simp; exact fun hh => hk hh.symm
      rw [this, ih]

theorem filterMap_joinRow1_keys (router : String) (vd : List (Val × BgpVpn)) :
    ∀ l : List (Val × BgpEvpn),
      (l.filterMap (joinRow1 router vd)).map (fun r => r.network_instance)
        = (l.map Prod.fst).filter (fun k => (dictLookup vd k).isSome) := by
  intro l
  induction l with
  | nil => rfl
  | cons p rest ih =>
    rw [List.filterMap_cons, List.map_cons, List.filter_cons]
    cases hl : dictLookup vd p.1 with
    | none =>
      have hj : joinRow1 router vd p = none := by unfold joinRow1; rw [hl]
      rw [hj]
      simpa using ih
    | some v =>
      have hj : joinRow1 router vd p = some
          { router := router, network_instance := p.1, id := p.2.id,
            admin_state := p.2.admin_state, vxlan_interface := p.2.vxlan_interface,
            evi := p.2.evi, ecmp := p.2.ecmp, oper_state := p.2.oper_state,
            rd := v.rd, import_rt := v.import_rt, export_rt := v.export_rt } := by
        unfold joinRow1; rw [hl]
      rw [hj]
      simpa using ih

theorem joinRows_length_le (router : String) (evpn : List BgpEvpn) (vpn : List BgpVpn) :
    (joinRows router evpn vpn).length ≤ min evpn.length vpn.length := by
  have hmap := filterMap_joinRow1_keys router
    (buildDict (fun it => it.network_instance) vpn)
    (buildDict (fun it => it.network_instance) evpn)
  have hlen : (joinRows router evpn vpn).length
      = (((buildDict (fun it => it.network_instance) evpn).map Prod.fst).filter
          (fun k => (dictLookup (buildDict (fun it => it.network_instance) vpn) k).isSome)).length := by
    rw [joinRows]
    rw [← List.length_map (List.filterMap _ _) (fun r => r.network_instance), hmap]
  rw [hlen]
  refine le_min ?_ ?_
  · calc (((buildDict (fun it => it.network_instance) evpn).map Prod.fst).filter _).length
        ≤ ((buildDict (fun it => it.network_instance) evpn).map Prod.fst).length :=
          List.length_filter_le _ _
      _ = (buildDict (fun it => it.network_instance) evpn).length := List.length_map _ _
      _ ≤ evpn.length := buildDict_length_le _ _
  · have hnodup : (((buildDict (fun it => it.network_instance) evpn).map Prod.fst).filter
        (fun k => (dictLookup (buildDict (fun it => it.network_instance) vpn) k).isSome)).Nodup :=
      (buildDict_keys_nodup _ _).filter _
    have hsub : (((buildDict (fun it => it.network_instance) evpn).map Prod.fst).filter
        (fun k => (dictLookup (buildDict (fun it => it.network_instance) vpn) k).isSome))
        ⊆ (buildDict (fun it => it.network_instance) vpn).map Prod.fst := by
      intro a ha
      have := List.of_mem_filter ha
      exact dictLookup_isSome_mem this
    calc (((buildDict (fun it => it.network_instance) evpn).map Prod.fst).filter _).length
        ≤ ((buildDict (fun it => it.network_instance) vpn).map Prod.fst).length :=
          (List.subperm_of_subset hnodup hsub).length_le
      _ = (buildDict (fun it => it.network_instance) vpn).length := List.length_map _ _
      _ ≤ vpn.length := buildDict_length_le _ _

theorem processNotifications_append (acc : List Val) (l1 l2 : List Val) :
    processNotifications acc (l1 ++ l2)
      = match processNotifications acc l1 with
        | (a, some e) => (a, some e)
        | (a, none) => processNotifications a l2 := by
  induction l1 generalizing acc with
  | nil => rfl
  | cons n rest ih =>
    simp only [List.cons_append, processNotifications]
    cases hp : procNotifStep acc n with
    | mk acc2 eopt =>
      cases eopt with
      | some e => rfl
      | none => exact ih acc2

theorem mainRows_cons_error {d : DeviceInput} {post : List DeviceInput} {msg : String}
    (h : get_bgp_evpn_info (getGnmiInfo d.evpnFetch) = .error msg) :
    mainRows (d :: post) = .error msg := by
  have hb : buildDevices (d :: post) = .error msg := by
    simp only [buildDevices]
    rw [h, exBind_err]
  simp only [mainRows]
  rw [hb, exBind_err]

theorem mainRows_error_device {d : DeviceInput} {post : List DeviceInput}
    {msg1 msg2 : String} (h1 : d.evpnFetch = .error msg1) (h2 : d.vpnFetch = .error msg2) :
    mainRows (d :: post) = mainRows post := by
  have he : getGnmiInfo d.evpnFetch = [] := by rw [h1]; rfl
  have hv : getGnmiInfo d.vpnFetch = [] := by rw [h2]; rfl
  simp only [mainRows, buildDevices, he, hv]
  cases hb : buildDevices post with
  | error e => rfl
  | ok built => rfl

/-- C3: for every device whose transport connection or get request fails on
both paths, the fetch does not propagate the exception: it returns the empty
sequence, extraction over it succeeds with no records, and the device
contributes zero joined rows while the remaining roster is still processed. -/
theorem connection_failure_degrades_to_empty (d : DeviceInput)
    (post : List DeviceInput) (msg1 msg2 : String)
    (h1 : d.evpnFetch = .error msg1) (h2 : d.vpnFetch = .error msg2) :
    getGnmiInfo d.evpnFetch = [] ∧ getGnmiInfo d.vpnFetch = [] ∧
    get_bgp_evpn_info (getGnmiInfo d.evpnFetch) = .ok [] ∧
    get_bgp_vpn_info (getGnmiInfo d.vpnFetch) = .ok [] ∧
    mainRows (d :: post) = mainRows post := by
  have he : getGnmiInfo d.evpnFetch = [] := by rw [h1]; rfl
  have hv : getGnmiInfo d.vpnFetch = [] := by rw [h2]; rfl
  refine ⟨he, hv, ?_, ?_, mainRows_error_device h1 h2⟩
  · rw [he]; rfl
  · rw [hv]; rfl

/-- witness for C3: the unreachable device `deviceDown` contributes nothing
and `deviceGood` after it is still processed. -/
theorem connection_failure_degrades_to_empty_witness :
    getGnmiInfo deviceDown.evpnFetch = [] ∧ getGnmiInfo deviceDown.vpnFetch = [] ∧
    get_bgp_evpn_info (getGnmiInfo deviceDown.evpnFetch) = .ok [] ∧
    get_bgp_vpn_info (getGnmiInfo deviceDown.vpnFetch) = .ok [] ∧
    mainRows [deviceDown, deviceGood] = mainRows [deviceGood] :=
  connection_failure_degrades_to_empty deviceDown [deviceGood]
    "connection refused" "connection refused" rfl rfl

/-- C4: when an EVPN bgp-instance extracts successfully, an absent
`oper-state` yields the literal sentinel `"no state"` and a present
`oper-state` is copied through unchanged. -/
theorem oper_state_sentinel (ni b : Val) (r : BgpEvpn)
    (h : extractBgpInstanceEvpn ni b = .ok r) :
    (hasKey b "oper-state" = false → r.oper_state = Val.str "no state") ∧
    (∀ v, getKey b "oper-state" = .ok v → r.oper_state = v) :=
  extractBgpInstanceEvpn_oper h

/-- witness for C4: `biEvpnNoOper` has no `oper-state` and extracts to a
record whose `oper_state` is the sentinel. -/
theorem oper_state_sentinel_witness :
    extractBgpInstanceEvpn niEvpnGood biEvpnNoOper = .ok recENoOper ∧
    recENoOper.oper_state = Val.str "no state" :=
  ⟨rfl, (oper_state_sentinel niEvpnGood biEvpnNoOper recENoOper rfl).1 rfl⟩

/-- C6 (code bug): the session parameters passed to the gNMIclient
constructor carry the device credentials, but `skip_verify` is the hard-coded
literal `True` (line 104), not the `skip_verify` the device was constructed
with: a device built with `skip_verify = false` still gets a session with
`skip_verify = true`. -/
theorem skip_verify_hardcoded :
    (gnmiClientArgs deviceNoVerify).username = deviceNoVerify.username ∧
    (gnmiClientArgs deviceNoVerify).password = deviceNoVerify.password ∧
    (gnmiClientArgs deviceNoVerify).target = (deviceNoVerify.router, deviceNoVerify.port) ∧
    deviceNoVerify.skip_verify = false ∧
    (gnmiClientArgs deviceNoVerify).skip_verify = true :=
  ⟨rfl, rfl, rfl, rfl, rfl⟩

/-- counterexample for C7: with a prior pygnmi logger level of 10 (DEBUG) and
a failing fetch, the level after the call is `LOGGING_LEVEL_WARNING` = 30,
not the prior level. -/
theorem logger_level_not_restored_cex :
    (runGetGnmiInfo 10 (Except.error "connection refused")).2.2 = LOGGING_LEVEL_WARNING ∧
    (runGetGnmiInfo 10 (Except.error "connection refused")).2.2 ≠ 10 := by
  constructor
  · rfl
  · intro h; cases h

/-- C7 as amended: on every exit path the pygnmi logger level is
`LOGGING_LEVEL_CRITICAL` while the get runs and `LOGGING_LEVEL_WARNING` (not
the prior level) after the call, and the returned list is exactly the decoded
data, independent of the prior level. -/
theorem logger_level_scoped_override (priorLevel : Nat) (fetch : Except String Val) :
    (runGetGnmiInfo priorLevel fetch).2.1 = LOGGING_LEVEL_CRITICAL ∧
    (runGetGnmiInfo priorLevel fetch).2.2 = LOGGING_LEVEL_WARNING ∧
    (runGetGnmiInfo priorLevel fetch).1 = getGnmiInfo fetch :=
  ⟨rfl, rfl, rfl⟩

/-- C9: extraction is a pure function of the raw instance tree: two runs on
equal trees yield identical record lists. -/
theorem extraction_deterministic (t1 t2 : List Val) (h : t1 = t2) :
    get_bgp_evpn_info t1 = get_bgp_evpn_info t2 ∧
    get_bgp_vpn_info t1 = get_bgp_vpn_info t2 := by
  rw [h]; exact ⟨rfl, rfl⟩

/-- witness for C9 at a concrete tree. -/
theorem extraction_deterministic_witness :
    get_bgp_evpn_info [niEvpnGood] = get_bgp_evpn_info [niEvpnGood] ∧
    get_bgp_vpn_info [niEvpnGood] = get_bgp_vpn_info [niEvpnGood] :=
  extraction_deterministic [niEvpnGood] [niEvpnGood] rfl

/-- C1: the per-device join is an inner join: the emitted key sequence is
exactly the EVPN-dict keys (in insertion order) that are also VPN-dict keys,
the output size is at most min of the two input sizes, and every emitted
row's instance name is a key of both keyed mappings. -/
theorem join_is_inner_join (router : String) (evpn : List BgpEvpn) (vpn : List BgpVpn) :
    ((joinRows router evpn vpn).map (fun r => r.network_instance)
       = ((buildDict (fun it => it.network_instance) evpn).map Prod.fst).filter
           (fun k => (dictLookup (buildDict (fun it => it.network_instance) vpn) k).isSome)) ∧
    (joinRows router evpn vpn).length ≤ min evpn.length vpn.length ∧
    ∀ row ∈ joinRows router evpn vpn,
      (dictLookup (buildDict (fun it => it.network_instance) evpn) row.network_instance).isSome
          = true ∧
      (dictLookup (buildDict (fun it => it.network_instance) vpn) row.network_instance).isSome
          = true := by
  refine ⟨filterMap_joinRow1_keys router _ _, joinRows_length_le router evpn vpn, ?_⟩
  intro row hrow
  have hrow2 : row ∈ List.filterMap
      (joinRow1 router (buildDict (fun it => it.network_instance) vpn))
      (buildDict (fun it => it.network_instance) evpn) := hrow
  obtain ⟨p, hp, hj⟩ := List.mem_filterMap.mp hrow2
  obtain ⟨v, hv, _, hni, _, _, _, _, _, _, _, _⟩ := joinRow1_some hj
  constructor
  · rw [hni]
    rw [dictLookup_of_mem_nodup (buildDict_keys_nodup _ _) hp]
    rfl
  · rw [hni, hv]; rfl

/-- witness for C1 on a one-instance device. -/
theorem join_is_inner_join_witness :
    rowGood ∈ joinRows "srl-1" [recE] [recV] ∧
    ((dictLookup (buildDict (fun it => it.network_instance) [recE])
        rowGood.network_instance).isSome = true ∧
     (dictLookup (buildDict (fun it => it.network_instance) [recV])
        rowGood.network_instance).isSome = true) :=
  ⟨by decide, (join_is_inner_join "srl-1" [recE] [recV]).2.2 rowGood (by decide)⟩

/-- counterexample for C2: with the first device missing the required field
`admin-state`, the whole run aborts with the propagated KeyError and yields
no rows at all, even though the second device alone produces a row — the
program does not continue to the remaining devices. -/
theorem missing_field_aborts_run_cex :
    mainRows [deviceBad, deviceGood] = .error "KeyError: admin-state" ∧
    mainRows [deviceGood] = .ok [rowGood] :=
  ⟨rfl, rfl⟩

/-- C2 as amended: an instance tree missing any required field (instance
name, id, admin-state, vxlan-interface, evi, ecmp) makes extraction fail with
a propagated error, and a propagated extraction error in a device aborts the
whole run (the device loop has no handler), so the remaining devices are not
processed. -/
theorem missing_required_field_aborts :
    (∀ ni b : Val,
       (hasKey ni "name" = false ∨ hasKey b "id" = false ∨
        hasKey b "admin-state" = false ∨ hasKey b "vxlan-interface" = false ∨
        hasKey b "evi" = false ∨ hasKey b "ecmp" = false) →
       ∃ msg, extractBgpInstanceEvpn ni b = .error msg) ∧
    (∀ (d : DeviceInput) (post : List DeviceInput) (msg : String),
       get_bgp_evpn_info (getGnmiInfo d.evpnFetch) = .error msg →
       mainRows (d :: post) = .error msg) := by
  constructor
  · intro ni b hmiss
    cases hx : extractBgpInstanceEvpn ni b with
    | error msg => exact ⟨msg, rfl⟩
    | ok r =>
      obtain ⟨q1, q2, q3, q4, q5, q6⟩ := extractBgpInstanceEvpn_ok_required hx
      rcases hmiss with h | h | h | h | h | h
      · rw [q1] at h; cases h
      · rw [q2] at h; cases h
      · rw [q3] at h; cases h
      · rw [q4] at h; cases h
      · rw [q5] at h; cases h
      · rw [q6] at h; cases h
  · intro d post msg h
    exact mainRows_cons_error h

/-- witness for the amended C2 at the concrete bad device. -/
theorem missing_required_field_aborts_witness :
    (∃ msg, extractBgpInstanceEvpn niEvpnBad biEvpnBad = .error msg) ∧
    mainRows [deviceBad, deviceGood] = .error "KeyError: admin-state" :=
  ⟨missing_required_field_aborts.1 niEvpnBad biEvpnBad
     (Or.inr (Or.inr (Or.inl (by decide)))),
   missing_required_field_aborts.2 deviceBad [deviceGood] "KeyError: admin-state" rfl⟩

/-- C5: the keyed mappings built in `main` are last-write-wins: a lookup
returns the last record in source order with that instance name, both for the
EVPN and the VPN dict comprehension; consequently every joined row copies its
fields from the last EVPN record and the last VPN record with that name. -/
theorem last_write_wins :
    (∀ (items : List BgpEvpn) (k : Val),
       dictLookup (buildDict (fun it => it.network_instance) items) k
         = items.reverse.find? (fun it => decide (it.network_instance = k))) ∧
    (∀ (items : List BgpVpn) (k : Val),
       dictLookup (buildDict (fun it => it.network_instance) items) k
         = items.reverse.find? (fun it => decide (it.network_instance = k))) ∧
    (∀ (router : String) (evpn : List BgpEvpn) (vpn : List BgpVpn) (row : JoinedRow),
       row ∈ joinRows router evpn vpn →
       (∃ lastE, evpn.reverse.find?
            (fun it => decide (it.network_instance = row.network_instance)) = some lastE ∧
          row.id = lastE.id ∧ row.admin_state = lastE.admin_state ∧
          row.vxlan_interface = lastE.vxlan_interface ∧ row.evi = lastE.evi ∧
          row.ecmp = lastE.ecmp ∧ row.oper_state = lastE.oper_state) ∧
       (∃ lastV, vpn.reverse.find?
            (fun it => decide (it.network_instance = row.network_instance)) = some lastV ∧
          row.rd = lastV.rd ∧ row.import_rt = lastV.import_rt ∧
          row.export_rt = lastV.export_rt)) := by
  refine ⟨fun items k => buildDict_lookup_last _ items k,
          fun items k => buildDict_lookup_last _ items k, ?_⟩
  intro router evpn vpn row hrow
  have hrow2 : row ∈ List.filterMap
      (joinRow1 router (buildDict (fun it => it.network_instance) vpn))
      (buildDict (fun it => it.network_instance) evpn) := hrow
  obtain ⟨p, hp, hj⟩ := List.mem_filterMap.mp hrow2
  obtain ⟨v, hv, _, hni, hid, hadm, hvx, hevi, hecmp, hop, hrd, himp, hexp⟩ := joinRow1_some hj
  constructor
  · refine ⟨p.2, ?_, hid, hadm, hvx, hevi, hecmp, hop⟩
    rw [hni, ← buildDict_lookup_last (fun it => it.network_instance) evpn p.1]
    exact dictLookup_of_mem_nodup (buildDict_keys_nodup _ _) hp
  · refine ⟨v, ?_, hrd, himp, hexp⟩
    rw [hni, ← buildDict_lookup_last (fun it => it.network_instance) vpn p.1]
    exact hv

/-- witness for C5: with two EVPN records named `default`, the joined row
carries the fields of the later one (`recE`), found first in the reversed
list. -/
theorem last_write_wins_witness :
    (∃ lastE, ([recE0, recE] : List BgpEvpn).reverse.find?
         (fun it => decide (it.network_instance = rowGood.network_instance)) = some lastE ∧
       rowGood.id = lastE.id ∧ rowGood.admin_state = lastE.admin_state ∧
       rowGood.vxlan_interface = lastE.vxlan_interface ∧ rowGood.evi = lastE.evi ∧
       rowGood.ecmp = lastE.ecmp ∧ rowGood.oper_state = lastE.oper_state) ∧
    (∃ lastV, ([recV] : List BgpVpn).reverse.find?
         (fun it => decide (it.network_instance = rowGood.network_instance)) = some lastV ∧
       rowGood.rd = lastV.rd ∧ rowGood.import_rt = lastV.import_rt ∧
       rowGood.export_rt = lastV.export_rt) :=
  last_write_wins.2.2 "srl-1" [recE0, recE] [recV] rowGood (by decide)

/-- C8: the VPN optional fields go through safe nested lookups: an absent
first level yields `none` instead of failing; a record with absent
route-distinguisher and present route-targets extracts with `rd = none` and
both targets populated; and a joined row copies `rd`, `import_rt` and
`export_rt` verbatim from the VPN record the key matched. -/
theorem vpn_optional_fields_safe :
    (∀ (kvs : List (String × Val)) (k1 k2 : String),
       lookupKey kvs k1 = none → safeGet2 (Val.obj kvs) k1 k2 = .ok none) ∧
    (∀ ni b nm i rtv ev iv : Val,
       getKey ni "name" = .ok nm → getKey b "id" = .ok i →
       hasKey b "route-distinguisher" = false →
       getKey b "route-target" = .ok rtv →
       dictGetOpt rtv "export-rt" = .ok (some ev) →
       dictGetOpt rtv "import-rt" = .ok (some iv) →
       extractBgpInstanceVpn ni b
         = .ok { network_instance := nm, id := i, rd := none,
                 export_rt := some ev, import_rt := some iv }) ∧
    (∀ (router : String) (vd : List (Val × BgpVpn)) (p : Val × BgpEvpn) (row : JoinedRow),
       joinRow1 router vd p = some row →
       ∃ v, dictLookup vd p.1 = some v ∧ row.rd = v.rd ∧
         row.import_rt = v.import_rt ∧ row.export_rt = v.export_rt) := by
  refine ⟨fun kvs k1 k2 h => safeGet2_absent k2 h, ?_, ?_⟩
  · intro ni b nm i rtv ev iv h1 h2 h3 h4 h5 h6
    exact extractVpn_rd_absent h1 h2 h3 h4 h5 h6
  · intro router vd p row h
    obtain ⟨v, hv, _, _, _, _, _, _, _, _, hrd, himp, hexp⟩ := joinRow1_some h
    exact ⟨v, hv, hrd, himp, hexp⟩

/-- witness for C8 at a concrete VPN bgp-instance with absent
route-distinguisher and present route-targets. -/
theorem vpn_optional_fields_safe_witness :
    extractBgpInstanceVpn niVpnGood biVpnNoRd
      = .ok { network_instance := Val.str "default", id := Val.vint 1, rd := none,
              export_rt := some (Val.str "target:100:1"),
              import_rt := some (Val.str "target:100:1") } :=
  vpn_optional_fields_safe.2.1 niVpnGood biVpnNoRd (Val.str "default") (Val.vint 1)
    (Val.obj [("export-rt", Val.str "target:100:1"), ("import-rt", Val.str "target:100:1")])
    (Val.str "target:100:1") (Val.str "target:100:1") rfl rfl (by decide) rfl rfl rfl

/-- C10: decoding is not atomic on error: when a notification fails to decode
(here: missing the `update` key) after earlier notifications already
contributed instances, the call returns the partial sequence collected before
the error, not an empty sequence. -/
theorem partial_decode_truncates (ns1 : List Val) (n : Val) (ns2 : List Val) (msg : String)
    (h1 : (processNotifications [] ns1).2 = none)
    (h2 : getKey n "update" = .error msg) :
    getGnmiInfo (.ok (Val.obj [("notification", Val.list (ns1 ++ n :: ns2))]))
      = (processNotifications [] ns1).1 := by
  have hx : getGnmiInfo (.ok (Val.obj [("notification", Val.list (ns1 ++ n :: ns2))]))
      = (processNotifications [] (ns1 ++ n :: ns2)).1 := rfl
  rw [hx, processNotifications_append]
  cases hq : processNotifications [] ns1 with
  | mk a eopt =>
    rw [hq] at h1
    simp at h1
    subst h1
    show (processNotifications a (n :: ns2)).1 = a
    have hstep : procNotifStep a n = (a, some msg) := by
      unfold procNotifStep; rw [h2]
    simp only [processNotifications]
    rw [hstep]

/-- witness for C10: one good notification followed by a notification without
`update`: the device still gets the one decoded instance. -/
theorem partial_decode_truncates_witness :
    getGnmiInfo (.ok (Val.obj [("notification", Val.list [notifGood, Val.obj []])]))
      = (processNotifications [] [notifGood]).1 ∧
    (processNotifications [] [notifGood]).1 = [niEvpnGood] :=
  ⟨partial_decode_truncates [notifGood] (Val.obj []) [] "KeyError: update" rfl rfl, rfl⟩
